import Mathlib

/-!
Verification development for the WebAuthn/FIDO2 demo server
(`server/index.js`, `server/storage.js`) of the `gpt-codex-ybikeyAuth`
repository.  The JSON-object stores (`users.json`, `challenges.json`) are
embedded as association lists of own entries, and property reads and
writes follow JavaScript semantics for `JSON.parse`-produced plain
objects, prototype chain included: usernames such as `"constructor"` and
`"__proto__"` pass the username validation, a read with no own entry under
such a key yields the truthy inherited `Object.prototype` member, and a
fresh assignment to `"__proto__"` is swallowed by the inherited setter
(see `jsGet`/`jsSet`).  The route handlers of `server/index.js` are
embedded as pure state-passing functions.  The cryptographic verifier and
ceremony-options generator live in the external `@simplewebauthn/server`
package (not part of the repository source); those two capabilities are
modelled from the specification, as flagged on each definition.
-/

/-- JSON-object lookup, `obj[key]` (`undefined` becomes `none`). -/
def objGet {α : Type} : List (String × α) → String → Option α
  | [], _ => none
  | p :: ps, k => if p.1 = k then some p.2 else objGet ps k

/-- JSON-object update, `obj[key] = v`: replace the existing entry in place
or append a fresh one. -/
def objSet {α : Type} : List (String × α) → String → α → List (String × α)
  | [], k, v => [(k, v)]
  | p :: ps, k, v => if p.1 = k then (k, v) :: ps else p :: objSet ps k v

/-- JSON-object deletion, `delete obj[key]`. -/
def objDel {α : Type} : List (String × α) → String → List (String × α)
  | [], _ => []
  | p :: ps, k => if p.1 = k then objDel ps k else p :: objDel ps k

/-- One stored credential entry, as written by `POST /api/register/verify`
(`server/index.js:189-199`).  Byte-valued fields (`credentialID`,
`credentialPublicKey`) are kept in their canonical wire encoding. -/
structure Credential where
  credentialID : String
  credentialPublicKey : String
  counter : Nat
  transports : List String
  deviceType : String
  backedUp : Bool
  aaguid : String
  createdAt : String
  lastUsed : String
deriving DecidableEq

/-- One user record, as created by `upsertUser` (`server/storage.js:45-58`). -/
structure User where
  id : String
  username : String
  displayName : String
  credentials : List Credential
  createdAt : String
deriving DecidableEq

/-- The session user set by the verify routes (`req.session.user`). -/
structure SessionUser where
  username : String
  displayName : String
deriving DecidableEq

/-- Whole-server mutable state: the `users.json` object, the
`challenges.json` object, and the requesting client's session. -/
structure ServerState where
  users : List (String × User)
  challenges : List (String × String)
  session : Option SessionUser
deriving DecidableEq

/-- JavaScript string truthiness: `s` is truthy iff it is nonempty. -/
def strTruthy (s : String) : Bool := s ≠ ""

/-- JavaScript `a || b` for an optional string `a` (absent or falsy picks `b`). -/
def jsOrOpt (a : Option String) (b : String) : String :=
  match a with
  | none => b
  | some s => if s = "" then b else s

/-- JavaScript `a || b` for two strings. -/
def jsOrStr (a b : String) : String := if a = "" then b else a

/-- The own property names of `Object.prototype` (ECMAScript).  The stores
of `server/storage.js` are `JSON.parse`-produced plain objects indexed by
user-controlled usernames, and every one of these names matches the
username pattern `^[a-zA-Z0-9_-]{1,32}$`, so a read `obj[key]` with no own
entry under such a key yields the *inherited* value (a function, or
`Object.prototype` itself for `__proto__`) - truthy, not `undefined`. -/
def objectProtoKeys : List String :=
  ["constructor", "hasOwnProperty", "isPrototypeOf", "propertyIsEnumerable",
   "toLocaleString", "toString", "valueOf",
   "__defineGetter__", "__defineSetter__", "__lookupGetter__", "__lookupSetter__",
   "__proto__"]

/-- Result of a JavaScript property read `obj[key]` on a `JSON.parse`-produced
plain object: an own entry, a value inherited from `Object.prototype`
(tagged here with the property name; the value itself is the inherited
function, or `Object.prototype` for `__proto__` - in either case a truthy
non-string, non-record object), or `undefined`. -/
inductive JsRead (α : Type) where
  | own (v : α)
  | inherited (name : String)
  | undefined
deriving DecidableEq

/-- JavaScript read `obj[key]`: the own entry when present, otherwise the
inherited `Object.prototype` member for its property names, otherwise
`undefined`. -/
def jsGet {α : Type} (m : List (String × α)) (k : String) : JsRead α :=
  match objGet m k with
  | some v => .own v
  | none => if k ∈ objectProtoKeys then .inherited k else .undefined

/-- JavaScript assignment `obj[key] = v` on a `JSON.parse`-produced plain
object: an existing own entry is updated and a normal new key (including
the `Object.prototype` method names, which the own property shadows) is
created; but when no own entry exists under `"__proto__"`, the assignment
invokes the inherited `__proto__` setter, which swallows a non-object value
- nothing is stored or serialized. -/
def jsSet {α : Type} (m : List (String × α)) (k : String) (v : α) :
    List (String × α) :=
  if k = "__proto__" ∧ (objGet m k).isNone = true then m else objSet m k v

/-- JavaScript truthiness of a read string value: an own empty string is
falsy; inherited `Object.prototype` members are functions or objects and
therefore truthy; `undefined` is falsy. -/
def JsRead.truthyStr : JsRead String → Bool
  | .own v => strTruthy v
  | .inherited _ => true
  | .undefined => false

/-- `setChallenge` of `server/storage.js:76-80`: the assignment
`challenges[username] = challenge` (swallowed for a fresh `"__proto__"`
key), then write the file. -/
def setChallenge (ch : List (String × String)) (username challenge : String) :
    List (String × String) :=
  jsSet ch username challenge

/-- `popChallenge` of `server/storage.js:82-90`: read
`challenges[username]` (prototype chain included), and when the value is
truthy delete the own entry (deleting nothing if the truthy value was
inherited) and write the file; return the read value with the updated
ledger. -/
def popChallenge (ch : List (String × String)) (username : String) :
    JsRead String × List (String × String) :=
  let value := jsGet ch username
  if value.truthyStr then (value, objDel ch username) else (value, ch)

/-- The stored own user record under a key: the entry actually serialized
in `users.json`.  The read the routes execute is `getUserJs` below, which
additionally sees truthy values inherited from `Object.prototype`;
`getUser us k = some u` says exactly that the parsed `users.json` carries
the own entry `(k, u)`. -/
def getUser (us : List (String × User)) (username : String) : Option User :=
  objGet us username

/-- `getUser` of `server/storage.js:60-63` as the routes execute it:
`users[username] || null`, with no case normalization.  `|| null` maps
`undefined` to `null` (both are the `.undefined` case here); for an
`Object.prototype` property name with no own entry the read returns the
truthy inherited member, not `null`. -/
def getUserJs (us : List (String × User)) (username : String) : JsRead User :=
  jsGet us username

/-- `saveUser` of `server/storage.js:65-69`: the assignment
`users[user.username] = user`, then write the file.  Every record the
routes pass here was obtained from an own-entry read and `upsertUser`
never creates records named after `Object.prototype` properties, and for
all such keys the assignment is exactly the own-entry update (only a
hand-crafted `users.json` with an own `"__proto__"` key could differ). -/
def saveUser (us : List (String × User)) (user : User) : List (String × User) :=
  objSet us user.username user

/-- `upsertUser` of `server/storage.js:45-58`: `if (!users[username])`
create the record and write the file, then return `users[username]`.  For
an `Object.prototype` property name the guard reads the truthy inherited
member, so nothing is created and the inherited value is returned.
`freshId` and `now` stand for `randomBytes(16)` and
`new Date().toISOString()`. -/
def upsertUser (us : List (String × User)) (username displayName freshId now : String) :
    JsRead User × List (String × User) :=
  match jsGet us username with
  | .undefined =>
    let u : User :=
      { id := freshId, username := username, displayName := jsOrStr displayName username,
        credentials := [], createdAt := now }
    (.own u, jsSet us username u)
  | cur => (cur, us)

/-- Whitespace for JavaScript `String.prototype.trim` (ASCII part; the
validated usernames contain none of the further Unicode space characters). -/
def jsSpace (c : Char) : Bool := c = ' ' || c = '\t' || c = '\n' || c = '\r'

/-- JavaScript `s.trim()`: strip leading and trailing whitespace. -/
def jsTrim (s : String) : String :=
  ⟨((s.data.dropWhile jsSpace).reverse.dropWhile jsSpace).reverse⟩

/-- One character of JavaScript `s.toLowerCase()` on the ASCII range the
username pattern admits. -/
def lowerChar (c : Char) : Char :=
  if 'A' ≤ c ∧ c ≤ 'Z' then Char.ofNat (c.toNat + 32) else c

/-- JavaScript `s.toLowerCase()` (ASCII range). -/
def jsToLower (s : String) : String := ⟨s.data.map lowerChar⟩

/-- One character of the `^[a-zA-Z0-9_-]{1,32}$` username pattern
(`server/index.js:68`). -/
def usernameChar (c : Char) : Bool :=
  c.isAlpha || c.isDigit || c = '_' || c = '-'

/-- `validateUsername` of `server/index.js:65-70`: require a string, trim
it, and accept only `^[a-zA-Z0-9_-]{1,32}$`. -/
def validateUsername (username : Option String) : Option String :=
  match username with
  | none => none
  | some s =>
    let t := jsTrim s
    if 1 ≤ t.length ∧ t.length ≤ 32 ∧ t.toList.all usernameChar then some t else none

/-- The `registrationInfo` extracted by the external registration verifier
(`server/index.js:176-184`). -/
structure RegistrationInfo where
  credentialID : String
  credentialPublicKey : String
  counter : Nat
  credentialDeviceType : String
  credentialBackedUp : Bool
  aaguid : String
deriving DecidableEq

/-- Result shape of `verifyRegistrationResponse`:`{ verified, registrationInfo }`. -/
structure RegVerification where
  verified : Bool
  registrationInfo : Option RegistrationInfo
deriving DecidableEq

/-- Outcome of `POST /api/register/verify` (`server/index.js:155-209`):
the 400/404 request-shape rejections, the catch-block 400, or the normal
`{ verified, registrationInfo }` JSON response.  `protoRead` marks the
branches where the route read a truthy value inherited from
`Object.prototype` (as expected challenge or as user record) and proceeded
toward cryptographic verification with it; those continuations call the
external library on inputs outside its contract, and no program-built
store can reach them (own challenge or user entries under
`Object.prototype` property names are never created: registration options
crash before `setChallenge` and authentication options answer 404), so the
model stops there, at a point where the stores are not yet modified. -/
inductive RegVerifyResult where
  | invalidRequest
  | challengeExpired
  | notFound
  | verifyError (msg : String)
  | ok (verified : Bool) (info : Option RegistrationInfo)
  | protoRead
deriving DecidableEq

/-- The data of an authentication assertion that the external verifier
inspects: the claimed credential id (`assertionResponse.id`), the challenge
echoed inside `clientDataJSON`, the reported signature counter, and the
outcome of the opaque cryptographic checks (signature, origin, rpId hash,
user-verification flag). -/
structure AssertionCheck where
  id : String
  challenge : String
  signatureValid : Bool
  originMatches : Bool
  rpIdHashMatches : Bool
  userVerifiedFlag : Bool
  counter : Nat
deriving DecidableEq

/-- The `authenticationInfo` returned by the external authentication
verifier (`verification.authenticationInfo.newCounter`). -/
structure AuthenticationInfo where
  newCounter : Nat
deriving DecidableEq

/-- Result shape of `verifyAuthenticationResponse`:
`{ verified, authenticationInfo }`. -/
structure AuthVerification where
  verified : Bool
  authenticationInfo : AuthenticationInfo
deriving DecidableEq

/-- Outcome of `POST /api/login/verify` (`server/index.js:251-294`).
`protoRead` marks the (program-unreachable, see `RegVerifyResult`) branch
where a truthy challenge inherited from `Object.prototype` reaches the
external verifier. -/
inductive AuthVerifyResult where
  | invalidRequest
  | challengeExpired
  | notFound
  | credentialNotFound
  | verifyError (msg : String)
  | ok (verified : Bool) (newCounter : Nat)
  | protoRead
deriving DecidableEq

/-- Whether an authentication outcome is the `verified: true` response. -/
def AuthVerifyResult.isSuccess : AuthVerifyResult → Bool
  | .ok true _ => true
  | _ => false

/-- First credential whose `credentialID` matches, as in
`user.credentials.find((c) => c.credentialID === credId)`. -/
def findCred (cid : String) : List Credential → Option Credential
  | [] => none
  | c :: cs => if c.credentialID = cid then some c else findCred cid cs

/-- Update (in place) the first credential whose `credentialID` matches,
as the mutation `authenticator.counter = ...` does on the record returned
by `find`. -/
def updateFirst (cid : String) (f : Credential → Credential) :
    List Credential → List Credential
  | [] => []
  | c :: cs => if c.credentialID = cid then f c :: cs else c :: updateFirst cid f cs

/-- `POST /api/register/verify` (`server/index.js:155-209`), parametric in
the external cryptographic verifier `verify` (which receives the expected
challenge popped from the ledger; the attestation response itself is fixed
for the call).  `hasResponse` is the presence of `attestationResponse` in
the body; `respTransports` is `attestationResponse.response?.transports`.
`now` stands for `new Date().toISOString()`. -/
def completeRegistrationWith
    (verify : String → Except String RegVerification)
    (now : String) (st : ServerState)
    (username : Option String) (hasResponse : Bool)
    (respTransports : Option (List String)) :
    RegVerifyResult × ServerState :=
  match validateUsername username, hasResponse with
  | some safeName, true =>
    let pc := popChallenge st.challenges safeName
    let st1 : ServerState := { st with challenges := pc.2 }
    if pc.1.truthyStr = false then (.challengeExpired, st1)
    else
      match getUserJs st1.users safeName with
      | .undefined => (.notFound, st1)
      | .inherited _ =>
        -- `if (!user)` passes on the truthy inherited member and the route
        -- proceeds toward verification with it; not modelled further
        (.protoRead, st1)
      | .own user =>
        match pc.1 with
        | .own c =>
          match verify c with
          | .error msg => (.verifyError msg, st1)
          | .ok verification =>
            if verification.verified then
              match verification.registrationInfo with
              | none =>
                -- destructuring `registrationInfo` while it is undefined
                -- throws a TypeError, which the catch block turns into a 400
                (.verifyError "TypeError", st1)
              | some info =>
                let cid := info.credentialID
                let st2 : ServerState :=
                  if (findCred cid user.credentials).isSome then st1
                  else
                    let newCred : Credential :=
                      { credentialID := cid,
                        credentialPublicKey := info.credentialPublicKey,
                        counter := info.counter,
                        transports := respTransports.getD ["usb"],
                        deviceType := info.credentialDeviceType,
                        backedUp := info.credentialBackedUp,
                        aaguid := info.aaguid,
                        createdAt := now, lastUsed := now }
                    let user1 :=
                      { user with credentials := user.credentials ++ [newCred] }
                    { st1 with users := saveUser st1.users user1 }
                (.ok true (some info),
                 { st2 with session := some ⟨user.username, user.displayName⟩ })
            else
              (.ok false verification.registrationInfo,
               { st1 with session := some ⟨user.username, user.displayName⟩ })
        | _ =>
          -- a truthy expected challenge inherited from `Object.prototype`
          -- reaches `verifyRegistrationResponse`; not modelled further
          (.protoRead, st1)
  | _, _ => (.invalidRequest, st)

/-- `POST /api/login/verify` (`server/index.js:251-294`), parametric in the
external cryptographic verifier `verify` (given the assertion, the expected
challenge and the stored authenticator). -/
def completeAuthenticationWith
    (verify : AssertionCheck → String → Credential → Except String AuthVerification)
    (now : String) (st : ServerState)
    (username : Option String) (assertion : Option AssertionCheck) :
    AuthVerifyResult × ServerState :=
  match validateUsername username, assertion with
  | some safeName, some a =>
    let pc := popChallenge st.challenges safeName
    let st1 : ServerState := { st with challenges := pc.2 }
    if pc.1.truthyStr = false then (.challengeExpired, st1)
    else
      match getUserJs st1.users safeName with
      | .undefined => (.notFound, st1)
      | .inherited _ =>
        -- the inherited member has no `credentials` field, so the
        -- `!user.credentials` guard fires and the route answers 404
        (.notFound, st1)
      | .own user =>
        if user.credentials.isEmpty then (.notFound, st1)
        else
          match findCred a.id user.credentials with
          | none => (.credentialNotFound, st1)
          | some authenticator =>
            match pc.1 with
            | .own c =>
              match verify a c authenticator with
              | .error msg => (.verifyError msg, st1)
              | .ok verification =>
                let st2 : ServerState :=
                  if verification.verified then
                    let bump := fun cr : Credential =>
                      { cr with counter := verification.authenticationInfo.newCounter,
                                lastUsed := now }
                    let creds1 := updateFirst a.id bump user.credentials
                    let user1 := { user with credentials := creds1 }
                    { st1 with users := saveUser st1.users user1 }
                  else st1
                (.ok verification.verified verification.authenticationInfo.newCounter,
                 { st2 with session := some ⟨user.username, user.displayName⟩ })
            | _ =>
              -- a truthy expected challenge inherited from `Object.prototype`
              -- reaches `verifyAuthenticationResponse`; not modelled further
              (.protoRead, st1)
  | _, _ => (.invalidRequest, st)

/-- Monotonic-counter acceptance, canonical policy of the spec: the new
counter must be strictly greater than the stored one, or both are zero. -/
def counterOk (reported stored : Nat) : Bool :=
  decide (stored < reported) || (decide (reported = 0) && decide (stored = 0))

/-- Modelled from the spec: `verifyAuthenticationResponse` of
`@simplewebauthn/server` is not part of the repository source; per the
spec's external-interface contract it validates the signature, challenge,
origin, rpId hash and (when required) the user-verification flag, applies
the canonical counter policy, and returns `{ verified, newCounter }` as
data (a failed check is a normal `verified: false`, never an exception). -/
def verifyAuthenticationCeremony (requireUV : Bool) (a : AssertionCheck)
    (expectedChallenge : String) (stored : Credential) : AuthVerification :=
  { verified := a.signatureValid && decide (a.challenge = expectedChallenge)
      && a.originMatches && a.rpIdHashMatches
      && (!requireUV || a.userVerifiedFlag)
      && counterOk a.counter stored.counter,
    authenticationInfo := { newCounter := a.counter } }

/-- `POST /api/login/verify` with the external verifier instantiated by its
spec model.  `requireUV` is `currentMode === 'pin_required'`. -/
def completeAuthentication (requireUV : Bool) (now : String) (st : ServerState)
    (username : Option String) (assertion : Option AssertionCheck) :
    AuthVerifyResult × ServerState :=
  completeAuthenticationWith
    (fun a c cred => .ok (verifyAuthenticationCeremony requireUV a c cred))
    now st username assertion

/-- The arguments `server/index.js:107-127` passes to the external
registration-options generator.  Note that the call passes *no*
`excludeCredentials` option. -/
structure GenRegArgs where
  rpName : String
  rpID : String
  userId : String
  userName : String
  userDisplayName : String
  attestationType : String
  userVerification : String
deriving DecidableEq

/-- Fields of the generated registration options that the route reads back. -/
structure GenRegOptions where
  challenge : String
  userId : String
  excludeCredentials : List String
deriving DecidableEq

/-- Modelled from the spec: `generateRegistrationOptions` of
`@simplewebauthn/server` is not part of the repository source.  It mints a
fresh random challenge (`minted`, nonempty), echoes the user identity it was
given, and derives the exclusion list solely from the `excludeCredentials`
option, which defaults to the empty list when - as at
`server/index.js:107-127` - the caller does not pass one (the repository's
own `FIXES_SUMMARY.md` records this missing argument and its empty-list
consequence). -/
def generateRegistrationOptions (args : GenRegArgs) (minted : String) :
    GenRegOptions :=
  { challenge := minted, userId := args.userId, excludeCredentials := [] }

/-- The JSON payload of `POST /api/register/options`
(`server/index.js:130-148`), restricted to the fields the claims are about. -/
structure RegOptionsPayload where
  challenge : String
  userId : String
  userName : String
  userDisplayName : String
  excludeCredentials : List String
deriving DecidableEq

/-- Outcome of `POST /api/register/options` (`server/index.js:100-152`).
`protoRead` is the branch where the username is an `Object.prototype`
property name: `upsertUser` then returns the truthy inherited member
instead of creating a record, and the route throws a `TypeError` at
`fromBase64(user.id)` (`user.id` is `undefined`) before any state change. -/
inductive RegOptionsResult where
  | invalidUsername
  | ok (payload : RegOptionsPayload)
  | protoRead
deriving DecidableEq

/-- The exclusion list of a registration-options outcome, when it succeeded. -/
def RegOptionsResult.excludeList : RegOptionsResult → Option (List String)
  | .invalidUsername => none
  | .ok p => some p.excludeCredentials
  | .protoRead => none

/-- `POST /api/register/options` (`server/index.js:100-152`): validate the
username, `upsertUser(safeName.toLowerCase(), displayName || safeName)`,
generate options, build the response payload, and record the challenge
under `safeName` (the *un*-lowercased trimmed name).  `freshId`, `now` and
`minted` stand for the random id, the timestamp and the minted challenge. -/
def beginRegistration (rpName rpID attestationType uvPolicy : String)
    (freshId now minted : String) (st : ServerState)
    (username displayName : Option String) :
    RegOptionsResult × ServerState :=
  match validateUsername username with
  | none => (.invalidUsername, st)
  | some safeName =>
    match upsertUser st.users (jsToLower safeName) (jsOrOpt displayName safeName)
        freshId now with
    | (.own user, users1) =>
      let options := generateRegistrationOptions
        { rpName := rpName, rpID := rpID, userId := user.id,
          userName := user.username, userDisplayName := user.displayName,
          attestationType := attestationType, userVerification := uvPolicy }
        minted
      let payload : RegOptionsPayload :=
        { challenge := options.challenge, userId := options.userId,
          userName := user.username, userDisplayName := user.displayName,
          excludeCredentials := options.excludeCredentials }
      let ch1 := setChallenge st.challenges safeName payload.challenge
      (.ok payload, { st with users := users1, challenges := ch1 })
    | (_, _) =>
      -- the inherited member: `fromBase64(user.id)` throws before
      -- `setChallenge`, so the state is unchanged
      (.protoRead, st)

/-- One entry of the authentication allow-list
(`{ id, type, transports }`). -/
structure AllowCredential where
  id : String
  type : String
  transports : List String
deriving DecidableEq

/-- The arguments `server/index.js:221-230` passes to the external
authentication-options generator. -/
structure GenAuthArgs where
  rpID : String
  userVerification : String
  allowCredentials : List AllowCredential
deriving DecidableEq

/-- Fields of the generated authentication options the route reads back. -/
structure GenAuthOptions where
  challenge : String
  rpID : String
  allowCredentials : List AllowCredential
  userVerification : String
deriving DecidableEq

/-- Modelled from the spec: `generateAuthenticationOptions` of
`@simplewebauthn/server` is not part of the repository source.  Per the
spec's Ceremony Options Builder contract it mints a fresh challenge and
produces the allow-list of exactly the credential identifiers passed in,
with transport hints, echoing the relying-party id and user-verification
policy. -/
def generateAuthenticationOptions (args : GenAuthArgs) (minted : String) :
    GenAuthOptions :=
  { challenge := minted, rpID := args.rpID,
    allowCredentials := args.allowCredentials,
    userVerification := args.userVerification }

/-- The JSON payload of `POST /api/login/options`
(`server/index.js:233-244`), restricted to the fields the claims are about. -/
structure AuthOptionsPayload where
  challenge : String
  rpId : String
  allowCredentials : List AllowCredential
  userVerification : String
deriving DecidableEq

/-- Outcome of `POST /api/login/options` (`server/index.js:212-248`). -/
inductive AuthOptionsResult where
  | invalidUsername
  | notFound
  | ok (payload : AuthOptionsPayload)
deriving DecidableEq

/-- `POST /api/login/options` (`server/index.js:212-248`): validate the
username, look the user up (no case normalization), reject with 404 when
the user is absent or has no credentials, otherwise build the allow-list
from the stored credentials and record the fresh challenge. -/
def beginAuthentication (rpID uvPolicy minted : String) (st : ServerState)
    (username : Option String) : AuthOptionsResult × ServerState :=
  match validateUsername username with
  | none => (.invalidUsername, st)
  | some safeName =>
    match getUserJs st.users safeName with
    | .undefined => (.notFound, st)
    | .inherited _ =>
      -- the inherited member has no `credentials` field, so the
      -- `!user.credentials` guard fires and the route answers 404
      (.notFound, st)
    | .own user =>
      if user.credentials.isEmpty then (.notFound, st)
      else
        let allow := user.credentials.map fun c =>
          (⟨c.credentialID, "public-key", c.transports⟩ : AllowCredential)
        let options := generateAuthenticationOptions
          { rpID := rpID, userVerification := uvPolicy, allowCredentials := allow }
          minted
        let payload : AuthOptionsPayload :=
          { challenge := options.challenge, rpId := options.rpID,
            allowCredentials := options.allowCredentials.map fun c =>
              { c with id := c.id },
            userVerification := options.userVerification }
        let ch1 := setChallenge st.challenges safeName payload.challenge
        (.ok payload, { st with challenges := ch1 })

/-- A concrete stored credential used to instantiate the theorems. -/
def democred : Credential :=
  { credentialID := "cred1", credentialPublicKey := "pk", counter := 5,
    transports := ["usb"], deviceType := "singleDevice", backedUp := false,
    aaguid := "", createdAt := "t0", lastUsed := "t0" }

/-- A concrete user owning `democred`. -/
def demoUser : User :=
  { id := "uid1", username := "alice", displayName := "Alice",
    credentials := [democred], createdAt := "t0" }

/-- A concrete server state: user `alice` with one credential and an
outstanding challenge `ch1`, no session. -/
def demoState : ServerState :=
  { users := [("alice", demoUser)], challenges := [("alice", "ch1")],
    session := none }

/-- A replayed assertion: everything cryptographically fine, but the
reported counter equals the stored counter `5`. -/
def demoReplay : AssertionCheck :=
  { id := "cred1", challenge := "ch1", signatureValid := true,
    originMatches := true, rpIdHashMatches := true, userVerifiedFlag := true,
    counter := 5 }

/-- An assertion whose signature is invalid but whose counter advances. -/
def demoBadSig : AssertionCheck :=
  { id := "cred1", challenge := "ch1", signatureValid := false,
    originMatches := true, rpIdHashMatches := true, userVerifiedFlag := true,
    counter := 6 }

/-- A fresh, valid assertion advancing the counter to `7`. -/
def demoFresh : AssertionCheck :=
  { id := "cred1", challenge := "ch1", signatureValid := true,
    originMatches := true, rpIdHashMatches := true, userVerifiedFlag := true,
    counter := 7 }

/-- A concrete `registrationInfo` for the already-stored credential. -/
def demoInfo : RegistrationInfo :=
  { credentialID := "cred1", credentialPublicKey := "pk", counter := 0,
    credentialDeviceType := "singleDevice", credentialBackedUp := false,
    aaguid := "" }

/-- Nonemptiness of an optional ledger entry (used to state the reachable
ledger invariant: the routes only ever store nonempty challenge strings). -/
def optNonEmpty : Option String → Bool
  | none => true
  | some v => if v = "" then false else true

/-- A concrete server state whose challenge ledger is empty (the challenge
for `alice` was never issued or already consumed). -/
def demoStateNoCh : ServerState :=
  { users := [("alice", demoUser)], challenges := [], session := none }

theorem objGet_objSet_self {α : Type} (m : List (String × α)) (k : String) (v : α) :
    objGet (objSet m k v) k = some v := by
  induction m with
  | nil => simp [objSet, objGet]
  | cons p ps ih =>
    by_cases h : p.1 = k
    · simp [objSet, objGet, h]
    · simp [objSet, objGet, h, ih]

theorem objGet_objDel_self {α : Type} (m : List (String × α)) (k : String) :
    objGet (objDel m k) k = none := by
  induction m with
  | nil => simp [objDel, objGet]
  | cons p ps ih =>
    by_cases h : p.1 = k
    · simp [objDel, h, ih]
    · simp [objDel, objGet, h, ih]

theorem findCred_isEmpty_false (cid : String) (cs : List Credential) (c : Credential)
    (h : findCred cid cs = some c) : cs.isEmpty = false := by
  cases cs with
  | nil => simp [findCred] at h
  | cons hd tl => simp [List.isEmpty]

theorem findCred_updateFirst (cid : String) (f : Credential → Credential)
    (cs : List Credential) (c : Credential) (h : findCred cid cs = some c)
    (hid : (f c).credentialID = c.credentialID) :
    findCred cid (updateFirst cid f cs) = some (f c) := by
  induction cs with
  | nil => simp [findCred] at h
  | cons hd tl ih =>
    by_cases hh : hd.credentialID = cid
    · simp [findCred, hh] at h
      subst h
      simp [updateFirst, findCred, hh, hid.trans hh]
    · simp [findCred, hh] at h
      simp [updateFirst, findCred, hh, ih h]

theorem jsGet_own {α : Type} (m : List (String × α)) (k : String) (v : α)
    (h : objGet m k = some v) : jsGet m k = .own v := by
  simp [jsGet, h]

theorem popChallenge_own (ch : List (String × String)) (u c : String)
    (h : objGet ch u = some c) (hc : c ≠ "") :
    popChallenge ch u = (.own c, objDel ch u) := by
  simp [popChallenge, jsGet_own ch u c h, JsRead.truthyStr, strTruthy, hc]

theorem popChallenge_absent (ch : List (String × String)) (u : String)
    (h : objGet ch u = none) (hmem : u ∉ objectProtoKeys) :
    popChallenge ch u = (.undefined, ch) := by
  simp [popChallenge, jsGet, h, hmem, JsRead.truthyStr]

theorem popChallenge_inherited (ch : List (String × String)) (u : String)
    (h : objGet ch u = none) (hmem : u ∈ objectProtoKeys) :
    popChallenge ch u = (.inherited u, objDel ch u) := by
  simp [popChallenge, jsGet, h, hmem, JsRead.truthyStr]

theorem completeAuthWith_eval
    (verify : AssertionCheck → String → Credential → Except String AuthVerification)
    (now : String) (st : ServerState) (username : Option String)
    (a : AssertionCheck) (safeName c : String) (user : User) (auth : Credential)
    (hu : validateUsername username = some safeName)
    (hc : objGet st.challenges safeName = some c) (hc0 : c ≠ "")
    (hg : objGet st.users safeName = some user)
    (hf : findCred a.id user.credentials = some auth) :
    completeAuthenticationWith verify now st username (some a)
      = (let st1 : ServerState := { st with challenges := objDel st.challenges safeName }
         match verify a c auth with
         | .error msg => (.verifyError msg, st1)
         | .ok verification =>
           let st2 : ServerState :=
             if verification.verified then
               let bump := fun cr : Credential =>
                 { cr with counter := verification.authenticationInfo.newCounter,
                           lastUsed := now }
               let creds1 := updateFirst a.id bump user.credentials
               let user1 := { user with credentials := creds1 }
               { st1 with users := saveUser st1.users user1 }
             else st1
           (.ok verification.verified verification.authenticationInfo.newCounter,
            { st2 with session := some ⟨user.username, user.displayName⟩ })) := by
  have hemp : user.credentials.isEmpty = false := findCred_isEmpty_false _ _ _ hf
  simp only [completeAuthenticationWith, hu, popChallenge_own st.challenges safeName c hc hc0,
    JsRead.truthyStr, strTruthy, hc0, getUserJs, jsGet_own st.users safeName user hg,
    hemp, hf, Bool.false_eq_true, ite_false, decide_not, ne_eq, decide_eq_true_eq,
    Bool.not_eq_false']

theorem completeRegWith_eval
    (verify : String → Except String RegVerification)
    (now : String) (st : ServerState) (username : Option String)
    (tr : Option (List String)) (safeName c : String) (user : User)
    (hu : validateUsername username = some safeName)
    (hc : objGet st.challenges safeName = some c) (hc0 : c ≠ "")
    (hg : objGet st.users safeName = some user) :
    completeRegistrationWith verify now st username true tr
      = (let st1 : ServerState := { st with challenges := objDel st.challenges safeName }
         match verify c with
         | .error msg => (.verifyError msg, st1)
         | .ok verification =>
           if verification.verified then
             match verification.registrationInfo with
             | none => (.verifyError "TypeError", st1)
             | some info =>
               let st2 : ServerState :=
                 if (findCred info.credentialID user.credentials).isSome then st1
                 else
                   let newCred : Credential :=
                     { credentialID := info.credentialID,
                       credentialPublicKey := info.credentialPublicKey,
                       counter := info.counter,
                       transports := tr.getD ["usb"],
                       deviceType := info.credentialDeviceType,
                       backedUp := info.credentialBackedUp,
                       aaguid := info.aaguid,
                       createdAt := now, lastUsed := now }
                   let user1 :=
                     { user with credentials := user.credentials ++ [newCred] }
                   { st1 with users := saveUser st1.users user1 }
               (.ok true (some info),
                { st2 with session := some ⟨user.username, user.displayName⟩ })
           else
             (.ok false verification.registrationInfo,
              { st1 with session := some ⟨user.username, user.displayName⟩ })) := by
  simp only [completeRegistrationWith, hu, popChallenge_own st.challenges safeName c hc hc0,
    JsRead.truthyStr, strTruthy, hc0, getUserJs, jsGet_own st.users safeName user hg,
    Bool.false_eq_true, ite_false, decide_not, ne_eq, decide_eq_true_eq,
    Bool.not_eq_false']

theorem popChallenge_empty (ch : List (String × String)) (u : String)
    (h : objGet ch u = some "") : popChallenge ch u = (.own "", ch) := by
  simp [popChallenge, jsGet_own ch u "" h, JsRead.truthyStr, strTruthy]

theorem completeAuthWith_users_cases
    (verify : AssertionCheck → String → Credential → Except String AuthVerification)
    (now : String) (st : ServerState) (username : Option String)
    (assertion : Option AssertionCheck) :
    (completeAuthenticationWith verify now st username assertion).2.users = st.users
    ∨ ((completeAuthenticationWith verify now st username assertion).1).isSuccess = true := by
  cases hval : validateUsername username with
  | none =>
    left
    cases assertion <;> simp [completeAuthenticationWith, hval]
  | some safeName =>
    cases assertion with
    | none => left; simp [completeAuthenticationWith, hval]
    | some a =>
      cases hpc : objGet st.challenges safeName with
      | none =>
        by_cases hmem : safeName ∈ objectProtoKeys
        · cases hg : objGet st.users safeName with
          | none =>
            left
            simp [completeAuthenticationWith, hval,
              popChallenge_inherited st.challenges safeName hpc hmem,
              JsRead.truthyStr, getUserJs, jsGet, hg, hmem]
          | some user =>
            by_cases hemp : user.credentials.isEmpty
            · left
              simp [completeAuthenticationWith, hval,
                popChallenge_inherited st.challenges safeName hpc hmem,
                JsRead.truthyStr, getUserJs, jsGet, hg, hemp]
            · cases hf : findCred a.id user.credentials with
              | none =>
                left
                simp [completeAuthenticationWith, hval,
                  popChallenge_inherited st.challenges safeName hpc hmem,
                  JsRead.truthyStr, getUserJs, jsGet, hg, hemp, hf]
              | some auth =>
                left
                simp [completeAuthenticationWith, hval,
                  popChallenge_inherited st.challenges safeName hpc hmem,
                  JsRead.truthyStr, getUserJs, jsGet, hg, hemp, hf]
        · left
          simp [completeAuthenticationWith, hval,
            popChallenge_absent st.challenges safeName hpc hmem, JsRead.truthyStr]
      | some v =>
        by_cases hv0 : v = ""
        · left
          subst hv0
          simp [completeAuthenticationWith, hval,
            popChallenge_empty st.challenges safeName hpc, JsRead.truthyStr, strTruthy]
        · cases hg : objGet st.users safeName with
          | none =>
            left
            by_cases hmem : safeName ∈ objectProtoKeys <;>
              simp [completeAuthenticationWith, hval,
                popChallenge_own st.challenges safeName v hpc hv0,
                JsRead.truthyStr, strTruthy, hv0, getUserJs, jsGet, hg, hmem]
          | some user =>
            by_cases hemp : user.credentials.isEmpty
            · left
              simp [completeAuthenticationWith, hval,
                popChallenge_own st.challenges safeName v hpc hv0,
                JsRead.truthyStr, strTruthy, hv0, getUserJs,
                jsGet_own st.users safeName user hg, hemp]
            · cases hf : findCred a.id user.credentials with
              | none =>
                left
                simp [completeAuthenticationWith, hval,
                  popChallenge_own st.challenges safeName v hpc hv0,
                  JsRead.truthyStr, strTruthy, hv0, getUserJs,
                  jsGet_own st.users safeName user hg, hemp, hf]
              | some auth =>
                cases hv : verify a v auth with
                | error msg =>
                  left
                  simp [completeAuthenticationWith, hval,
                    popChallenge_own st.challenges safeName v hpc hv0,
                    JsRead.truthyStr, strTruthy, hv0, getUserJs,
                    jsGet_own st.users safeName user hg, hemp, hf, hv]
                | ok verification =>
                  by_cases hvv : verification.verified
                  · right
                    simp [completeAuthenticationWith, hval,
                      popChallenge_own st.challenges safeName v hpc hv0,
                      JsRead.truthyStr, strTruthy, hv0, getUserJs,
                      jsGet_own st.users safeName user hg, hemp, hf, hv, hvv,
                      AuthVerifyResult.isSuccess]
                  · left
                    simp [completeAuthenticationWith, hval,
                      popChallenge_own st.challenges safeName v hpc hv0,
                      JsRead.truthyStr, strTruthy, hv0, getUserJs,
                      jsGet_own st.users safeName user hg, hemp, hf, hv, hvv]

theorem completeAuthWith_challenges
    (verify : AssertionCheck → String → Credential → Except String AuthVerification)
    (now : String) (st : ServerState) (username : Option String)
    (a : AssertionCheck) (safeName : String)
    (hu : validateUsername username = some safeName) :
    (completeAuthenticationWith verify now st username (some a)).2.challenges
      = (popChallenge st.challenges safeName).2 := by
  cases hpc : objGet st.challenges safeName with
  | none =>
    by_cases hmem : safeName ∈ objectProtoKeys
    · cases hg : objGet st.users safeName with
      | none =>
        simp [completeAuthenticationWith, hu,
          popChallenge_inherited st.challenges safeName hpc hmem,
          JsRead.truthyStr, getUserJs, jsGet, hg, hmem]
      | some user =>
        by_cases hemp : user.credentials.isEmpty
        · simp [completeAuthenticationWith, hu,
            popChallenge_inherited st.challenges safeName hpc hmem,
            JsRead.truthyStr, getUserJs, jsGet, hg, hemp]
        · cases hf : findCred a.id user.credentials with
          | none =>
            simp [completeAuthenticationWith, hu,
              popChallenge_inherited st.challenges safeName hpc hmem,
              JsRead.truthyStr, getUserJs, jsGet, hg, hemp, hf]
          | some auth =>
            simp [completeAuthenticationWith, hu,
              popChallenge_inherited st.challenges safeName hpc hmem,
              JsRead.truthyStr, getUserJs, jsGet, hg, hemp, hf]
    · simp [completeAuthenticationWith, hu,
        popChallenge_absent st.challenges safeName hpc hmem, JsRead.truthyStr]
  | some v =>
    by_cases hv0 : v = ""
    · subst hv0
      simp [completeAuthenticationWith, hu,
        popChallenge_empty st.challenges safeName hpc, JsRead.truthyStr, strTruthy]
    · cases hg : objGet st.users safeName with
      | none =>
        by_cases hmem : safeName ∈ objectProtoKeys <;>
          simp [completeAuthenticationWith, hu,
            popChallenge_own st.challenges safeName v hpc hv0,
            JsRead.truthyStr, strTruthy, hv0, getUserJs, jsGet, hg, hmem]
      | some user =>
        by_cases hemp : user.credentials.isEmpty
        · simp [completeAuthenticationWith, hu,
            popChallenge_own st.challenges safeName v hpc hv0,
            JsRead.truthyStr, strTruthy, hv0, getUserJs,
            jsGet_own st.users safeName user hg, hemp]
        · cases hf : findCred a.id user.credentials with
          | none =>
            simp [completeAuthenticationWith, hu,
              popChallenge_own st.challenges safeName v hpc hv0,
              JsRead.truthyStr, strTruthy, hv0, getUserJs,
              jsGet_own st.users safeName user hg, hemp, hf]
          | some auth =>
            cases hv : verify a v auth with
            | error msg =>
              simp [completeAuthenticationWith, hu,
                popChallenge_own st.challenges safeName v hpc hv0,
                JsRead.truthyStr, strTruthy, hv0, getUserJs,
                jsGet_own st.users safeName user hg, hemp, hf, hv]
            | ok verification =>
              by_cases hvv : verification.verified <;>
                simp [completeAuthenticationWith, hu,
                  popChallenge_own st.challenges safeName v hpc hv0,
                  JsRead.truthyStr, strTruthy, hv0, getUserJs,
                  jsGet_own st.users safeName user hg, hemp, hf, hv, hvv]

theorem completeRegWith_challenges
    (verify : String → Except String RegVerification)
    (now : String) (st : ServerState) (username : Option String)
    (tr : Option (List String)) (safeName : String)
    (hu : validateUsername username = some safeName) :
    (completeRegistrationWith verify now st username true tr).2.challenges
      = (popChallenge st.challenges safeName).2 := by
  cases hpc : objGet st.challenges safeName with
  | none =>
    by_cases hmem : safeName ∈ objectProtoKeys
    · cases hg : objGet st.users safeName with
      | none =>
        simp [completeRegistrationWith, hu,
          popChallenge_inherited st.challenges safeName hpc hmem,
          JsRead.truthyStr, getUserJs, jsGet, hg, hmem]
      | some user =>
        simp [completeRegistrationWith, hu,
          popChallenge_inherited st.challenges safeName hpc hmem,
          JsRead.truthyStr, getUserJs, jsGet, hg]
    · simp [completeRegistrationWith, hu,
        popChallenge_absent st.challenges safeName hpc hmem, JsRead.truthyStr]
  | some v =>
    by_cases hv0 : v = ""
    · subst hv0
      simp [completeRegistrationWith, hu,
        popChallenge_empty st.challenges safeName hpc, JsRead.truthyStr, strTruthy]
    · cases hg : objGet st.users safeName with
      | none =>
        by_cases hmem : safeName ∈ objectProtoKeys <;>
          simp [completeRegistrationWith, hu,
            popChallenge_own st.challenges safeName v hpc hv0,
            JsRead.truthyStr, strTruthy, hv0, getUserJs, jsGet, hg, hmem]
      | some user =>
        cases hv : verify v with
        | error msg =>
          simp [completeRegistrationWith, hu,
            popChallenge_own st.challenges safeName v hpc hv0,
            JsRead.truthyStr, strTruthy, hv0, getUserJs,
            jsGet_own st.users safeName user hg, hv]
        | ok verification =>
          by_cases hvv : verification.verified
          · cases hinfo : verification.registrationInfo with
            | none =>
              simp [completeRegistrationWith, hu,
                popChallenge_own st.challenges safeName v hpc hv0,
                JsRead.truthyStr, strTruthy, hv0, getUserJs,
                jsGet_own st.users safeName user hg, hv, hvv, hinfo]
            | some info =>
              by_cases hex : (findCred info.credentialID user.credentials).isSome <;>
                simp [completeRegistrationWith, hu,
                  popChallenge_own st.challenges safeName v hpc hv0,
                  JsRead.truthyStr, strTruthy, hv0, getUserJs,
                  jsGet_own st.users safeName user hg, hv, hvv, hinfo, hex]
          · simp [completeRegistrationWith, hu,
              popChallenge_own st.challenges safeName v hpc hv0,
              JsRead.truthyStr, strTruthy, hv0, getUserJs,
              jsGet_own st.users safeName user hg, hv, hvv]

theorem counterOk_false (r s : Nat) (h1 : s ≠ 0) (h2 : r ≤ s) : counterOk r s = false := by
  simp [counterOk, Nat.not_lt.mpr h2, h1]

theorem getUser_saveUser_self (us : List (String × User)) (u : User) :
    getUser (saveUser us u) u.username = some u :=
  objGet_objSet_self us u.username u

/-- C1: when the stored credential's counter is nonzero, an assertion whose
reported counter is less than or equal to it yields `verified: false`; when
both counters are zero and every cryptographic check passes, the attempt is
tolerated (`verified: true`); and whenever the outcome is `verified: true`
with reported counter `n`, the stored credential is persisted with counter
`n` and a fresh `lastUsed` timestamp. -/
theorem C1_counter_clone_detection
    (requireUV : Bool) (now : String) (st : ServerState) (username : Option String)
    (a : AssertionCheck) (safeName c : String) (user : User) (auth : Credential)
    (hu : validateUsername username = some safeName)
    (hc : objGet st.challenges safeName = some c) (hc0 : c ≠ "")
    (hg : objGet st.users safeName = some user)
    (hf : findCred a.id user.credentials = some auth)
    (hun : user.username = safeName) :
    (auth.counter ≠ 0 → a.counter ≤ auth.counter →
      (completeAuthentication requireUV now st username (some a)).1 = .ok false a.counter)
    ∧ (a.counter = 0 → auth.counter = 0 → a.signatureValid = true → a.challenge = c →
        a.originMatches = true → a.rpIdHashMatches = true →
        (requireUV = false ∨ a.userVerifiedFlag = true) →
        (completeAuthentication requireUV now st username (some a)).1 = .ok true 0)
    ∧ (∀ n, (completeAuthentication requireUV now st username (some a)).1 = .ok true n →
        n = a.counter ∧
        getUser (completeAuthentication requireUV now st username (some a)).2.users safeName
          = some { user with
                   credentials := updateFirst a.id
                     (fun cr => { cr with counter := n, lastUsed := now }) user.credentials }) := by
  have hE := completeAuthWith_eval
    (fun a c cred => .ok (verifyAuthenticationCeremony requireUV a c cred))
    now st username a safeName c user auth hu hc hc0 hg hf
  refine ⟨?_, ?_, ?_⟩
  · intro h1 h2
    have hco := counterOk_false _ _ h1 h2
    simp only [completeAuthentication]
    rw [hE]
    simp [verifyAuthenticationCeremony, hco]
  · intro hz1 hz2 hs hch ho hr huv
    simp only [completeAuthentication]
    rw [hE]
    rcases huv with huv | huv <;>
      simp [verifyAuthenticationCeremony, counterOk, hz1, hz2, hs, hch, ho, hr, huv]
  · intro n hres
    have hnc : (verifyAuthenticationCeremony requireUV a c auth).authenticationInfo.newCounter
        = a.counter := rfl
    simp only [completeAuthentication] at hres ⊢
    rw [hE] at hres ⊢
    by_cases hvv : (verifyAuthenticationCeremony requireUV a c auth).verified
    · simp only [hvv, hnc, ite_true] at hres ⊢
      simp at hres
      subst hres
      refine ⟨rfl, ?_⟩
      simp [getUser, saveUser, hun, objGet_objSet_self]
    · exfalso
      simp [hvv] at hres

/-- C1 (witness): on the concrete state (stored counter `5`), a replayed
assertion reporting counter `5` is rejected with `verified: false`. -/
theorem C1_witness :
    (completeAuthentication false "t1" demoState (some "alice") (some demoReplay)).1
      = .ok false 5 :=
  (C1_counter_clone_detection false "t1" demoState (some "alice") demoReplay "alice" "ch1"
      demoUser democred (by decide) (by decide) (by decide) (by decide) (by decide)
      (by decide)).1 (by decide) (by decide)

/-- C2 (counterexample): the claim fails on three families of inputs.
With the empty-string challenge, the `if (value)` guard of
`server/storage.js:85` skips the deletion, so a second `popChallenge`
returns the value again instead of absent.  With the username
`"constructor"` (which passes username validation) the second pop reads
the truthy inherited `Object.prototype.constructor`, not absent.  With the
username `"__proto__"` the assignment in `setChallenge` is swallowed by
the inherited setter, so nothing is stored and even the first pop returns
`Object.prototype` rather than the challenge. -/
theorem C2_counterexample :
    ((popChallenge (setChallenge [] "alice" "") "alice").1 = .own ""
      ∧ (popChallenge (popChallenge (setChallenge [] "alice" "") "alice").2 "alice").1
          ≠ .undefined)
    ∧ ((popChallenge (setChallenge [] "constructor" "chx") "constructor").1 = .own "chx"
      ∧ (popChallenge (popChallenge (setChallenge [] "constructor" "chx") "constructor").2
          "constructor").1 = .inherited "constructor")
    ∧ (setChallenge [] "__proto__" "chx" = []
      ∧ (popChallenge (setChallenge [] "__proto__" "chx") "__proto__").1
          = .inherited "__proto__") := by
  decide

/-- C2 (amended): for every username that is not an own property name of
`Object.prototype` and every *nonempty* challenge `c`, `popChallenge`
after `setChallenge u c` returns exactly `c`, and a second
immediately-following `popChallenge` returns absent.  (For the twelve
`Object.prototype` property names the ledger read falls through to the
prototype chain, and for the empty challenge the deletion is skipped, as
the counterexample shows.) -/
theorem C2_set_then_pop (ch : List (String × String)) (u c : String) (h : c ≠ "")
    (hmem : u ∉ objectProtoKeys) :
    (popChallenge (setChallenge ch u c) u).1 = .own c
    ∧ (popChallenge (popChallenge (setChallenge ch u c) u).2 u).1 = .undefined := by
  have hp : u ≠ "__proto__" := fun hq => hmem (by rw [hq]; decide)
  have hset : setChallenge ch u c = objSet ch u c := by
    simp [setChallenge, jsSet, hp]
  have h1 : objGet (setChallenge ch u c) u = some c := by
    rw [hset]
    exact objGet_objSet_self ch u c
  have h2 := popChallenge_own (setChallenge ch u c) u c h1 h
  have h3 : objGet (objDel (setChallenge ch u c) u) u = none := objGet_objDel_self ..
  refine ⟨by rw [h2], ?_⟩
  rw [h2]
  rw [popChallenge_absent (objDel (setChallenge ch u c) u) u h3 hmem]

/-- C2 (witness): the amended statement at the concrete username `bob`
and challenge `chx`. -/
theorem C2_witness :
    (popChallenge (setChallenge [] "bob" "chx") "bob").1 = .own "chx"
    ∧ (popChallenge (popChallenge (setChallenge [] "bob" "chx") "bob").2 "bob").1 = .undefined :=
  C2_set_then_pop [] "bob" "chx" (by decide) (by decide)

/-- C3: every verification attempt that passes request-shape validation
consumes the outstanding challenge for that username: whatever the outcome
(verified, not verified, or any error), no challenge remains in the ledger
for that username afterwards.  The hypothesis `optNonEmpty ...` is the
reachable-ledger invariant: the routes only ever store nonempty (base64url
of at least 16 random bytes) challenge strings. -/
theorem C3_challenge_consumed
    (verifyR : String → Except String RegVerification)
    (verifyA : AssertionCheck → String → Credential → Except String AuthVerification)
    (now : String) (st : ServerState) (username : Option String) (safeName : String)
    (tr : Option (List String)) (a : AssertionCheck)
    (hu : validateUsername username = some safeName)
    (hne : optNonEmpty (objGet st.challenges safeName) = true) :
    objGet (completeRegistrationWith verifyR now st username true tr).2.challenges safeName = none
    ∧ objGet (completeAuthenticationWith verifyA now st username (some a)).2.challenges safeName
        = none := by
  rw [completeRegWith_challenges verifyR now st username tr safeName hu,
    completeAuthWith_challenges verifyA now st username a safeName hu]
  cases hpc : objGet st.challenges safeName with
  | none =>
    by_cases hmem : safeName ∈ objectProtoKeys
    · rw [popChallenge_inherited st.challenges safeName hpc hmem]
      exact ⟨objGet_objDel_self .., objGet_objDel_self ..⟩
    · rw [popChallenge_absent st.challenges safeName hpc hmem]
      exact ⟨hpc, hpc⟩
  | some v =>
    have hv : v ≠ "" := by
      intro hveq
      rw [hpc, hveq] at hne
      simp [optNonEmpty] at hne
    rw [popChallenge_own st.challenges safeName v hpc hv]
    exact ⟨objGet_objDel_self .., objGet_objDel_self ..⟩

/-- C3 (witness): on the concrete state, both completion routes leave no
challenge for `alice`. -/
theorem C3_witness :
    objGet (completeRegistrationWith (fun _ => .ok ⟨true, some demoInfo⟩) "t1" demoState
        (some "alice") true none).2.challenges "alice" = none
    ∧ objGet (completeAuthenticationWith
        (fun a c cred => .ok (verifyAuthenticationCeremony false a c cred)) "t1" demoState
        (some "alice") (some demoReplay)).2.challenges "alice" = none :=
  C3_challenge_consumed _ _ "t1" demoState (some "alice") "alice" none demoReplay
    (by decide) (by decide)

/-- C4 (counterexample): the username `"constructor"` passes username
validation, yet with no outstanding challenge the ledger read
`challenges["constructor"]` returns the truthy inherited
`Object.prototype.constructor` instead of `undefined`, so the
`!expectedChallenge` guard does not fire: `login/verify` for the unknown
user answers `NotFound`, and `register/verify` passes both guards and
proceeds toward cryptographic verification (the `protoRead` marker) -
refuting the claim that every such call yields `ChallengeExpired` before
any cryptographic work. -/
theorem C4_counterexample :
    validateUsername (some "constructor") = some "constructor"
    ∧ objGet (⟨[], [], none⟩ : ServerState).challenges "constructor" = none
    ∧ (completeAuthenticationWith
        (fun a c cred => .ok (verifyAuthenticationCeremony false a c cred)) "t1"
        ⟨[], [], none⟩ (some "constructor") (some demoFresh)).1 = .notFound
    ∧ (completeRegistrationWith (fun _ => .ok ⟨true, some demoInfo⟩) "t1"
        ⟨[], [], none⟩ (some "constructor") true none).1 = .protoRead := by
  decide

/-- C4 (amended): completing either ceremony for a username that is not an
own property name of `Object.prototype` and has no outstanding challenge
yields the `ChallengeExpired` error, for *every* external verifier - so in
particular regardless of an otherwise-valid signature, and before any
cryptographic verification is attempted.  (For the twelve
`Object.prototype` property names - all of which pass username validation
- the absent ledger entry reads as a truthy inherited value and the routes
take other paths, as the counterexample shows.) -/
theorem C4_challenge_expired_first
    (verifyR : String → Except String RegVerification)
    (verifyA : AssertionCheck → String → Credential → Except String AuthVerification)
    (now : String) (st : ServerState) (username : Option String) (safeName : String)
    (tr : Option (List String)) (a : AssertionCheck)
    (hu : validateUsername username = some safeName)
    (habs : objGet st.challenges safeName = none)
    (hmem : safeName ∉ objectProtoKeys) :
    (completeRegistrationWith verifyR now st username true tr).1 = .challengeExpired
    ∧ (completeAuthenticationWith verifyA now st username (some a)).1 = .challengeExpired := by
  constructor <;>
    simp [completeRegistrationWith, completeAuthenticationWith, hu,
      popChallenge_absent st.challenges safeName habs hmem, JsRead.truthyStr]

/-- C4 (witness): on the concrete state with an empty ledger, both
completion routes answer `ChallengeExpired` even though the supplied
verifiers would accept. -/
theorem C4_witness :
    (completeRegistrationWith (fun _ => .ok ⟨true, some demoInfo⟩) "t1" demoStateNoCh
        (some "alice") true none).1 = .challengeExpired
    ∧ (completeAuthenticationWith
        (fun a c cred => .ok (verifyAuthenticationCeremony false a c cred)) "t1" demoStateNoCh
        (some "alice") (some demoFresh)).1 = .challengeExpired :=
  C4_challenge_expired_first _ _ "t1" demoStateNoCh (some "alice") "alice" none demoFresh
    (by decide) (by decide) (by decide)

/-- C5 (code bug): an authentication attempt that reaches the verifier and
comes back `verified: false` (here: invalid signature) still sets the
session user - `req.session.user = ...` at `server/index.js:289` runs
unconditionally after the `try` - contradicting the claim that the session
is left unchanged on failed verification. -/
theorem C5_session_set_despite_failure :
    demoState.session = none
    ∧ (completeAuthentication false "t1" demoState (some "alice") (some demoBadSig)).1
        = .ok false 6
    ∧ (completeAuthentication false "t1" demoState (some "alice") (some demoBadSig)).2.session
        = some ⟨"alice", "Alice"⟩ := by
  decide

/-- C6 (code bug): for a user who already owns credential `cred1`, the
registration options carry an *empty* exclusion list - the call at
`server/index.js:107-127` never passes the user's credentials to the
options generator - contradicting the claim that the exclusion list
consists exactly of the user's registered credential identifiers. -/
theorem C6_exclude_list_always_empty :
    demoUser.credentials.map (fun cr => cr.credentialID) = ["cred1"]
    ∧ (beginRegistration "YubiKey Auth Demo" "localhost" "none" "discouraged" "fid" "t1" "m1"
        demoState (some "alice") (some "Alice")).1.excludeList = some [] := by
  decide

/-- C7 (code bug): `beginRegistration` with the mixed-case username
`"Alice"` creates the user record under the lowercased key `"alice"`
(`upsertUser(safeName.toLowerCase(), ...)`), but `completeRegistration`
looks the record up with the *un*-lowercased `getUser(safeName)` and
therefore fails with `NotFound`, contradicting the claim that differently
cased spellings resolve to the same stored record. -/
theorem C7_case_normalization_mismatch :
    (getUser (beginRegistration "YubiKey Auth Demo" "localhost" "none" "discouraged" "fid" "t0"
        "m1" ⟨[], [], none⟩ (some "Alice") none).2.users "alice").isSome = true
    ∧ getUser (beginRegistration "YubiKey Auth Demo" "localhost" "none" "discouraged" "fid" "t0"
        "m1" ⟨[], [], none⟩ (some "Alice") none).2.users "Alice" = none
    ∧ (completeRegistrationWith (fun _ => .ok ⟨true, some demoInfo⟩) "t1"
        (beginRegistration "YubiKey Auth Demo" "localhost" "none" "discouraged" "fid" "t0" "m1"
          ⟨[], [], none⟩ (some "Alice") none).2 (some "Alice") true none).1 = .notFound := by
  decide

/-- C8: completing registration is idempotent by credential identifier -
when a successful verification reports a `credentialID` already present in
the user's credential set, the route answers `verified: true` without
erroring and the user store (hence the credential count) is unchanged. -/
theorem C8_idempotent_registration
    (verify : String → Except String RegVerification) (now : String) (st : ServerState)
    (username : Option String) (tr : Option (List String)) (safeName c : String)
    (user : User) (info : RegistrationInfo)
    (hu : validateUsername username = some safeName)
    (hc : objGet st.challenges safeName = some c) (hc0 : c ≠ "")
    (hg : objGet st.users safeName = some user)
    (hv : verify c = .ok ⟨true, some info⟩)
    (hex : (findCred info.credentialID user.credentials).isSome = true) :
    (completeRegistrationWith verify now st username true tr).1 = .ok true (some info)
    ∧ (completeRegistrationWith verify now st username true tr).2.users = st.users := by
  rw [completeRegWith_eval verify now st username tr safeName c user hu hc hc0 hg]
  simp [hv, hex]

/-- C8 (witness): re-registering the already-stored `cred1` succeeds and
leaves the user store untouched. -/
theorem C8_witness :
    (completeRegistrationWith (fun _ => .ok ⟨true, some demoInfo⟩) "t1" demoState (some "alice")
        true none).1 = .ok true (some demoInfo)
    ∧ (completeRegistrationWith (fun _ => .ok ⟨true, some demoInfo⟩) "t1" demoState
        (some "alice") true none).2.users = demoState.users :=
  C8_idempotent_registration _ "t1" demoState (some "alice") none "alice" "ch1" demoUser
    demoInfo (by decide) (by decide) (by decide) (by decide) rfl (by decide)

/-- C9: authentication options for an unknown username, or one with zero
stored credentials, fail with `NotFound`; for a username with stored
credentials they succeed with an allow-list containing exactly those
credential identifiers (in order). -/
theorem C9_auth_options_allow_list
    (rpID uvPolicy minted : String) (st : ServerState) (username : Option String)
    (safeName : String) (hu : validateUsername username = some safeName) :
    (getUser st.users safeName = none →
      (beginAuthentication rpID uvPolicy minted st username).1 = .notFound)
    ∧ (∀ user, getUser st.users safeName = some user → user.credentials = [] →
        (beginAuthentication rpID uvPolicy minted st username).1 = .notFound)
    ∧ (∀ user, getUser st.users safeName = some user → user.credentials ≠ [] →
        ∃ p, (beginAuthentication rpID uvPolicy minted st username).1 = .ok p
          ∧ p.allowCredentials.map (fun ac => ac.id)
              = user.credentials.map (fun cr => cr.credentialID)) := by
  refine ⟨?_, ?_, ?_⟩
  · intro hg
    have hg' : objGet st.users safeName = none := hg
    by_cases hmem : safeName ∈ objectProtoKeys <;>
      simp [beginAuthentication, hu, getUserJs, jsGet, hg', hmem]
  · intro user hg hemp
    have hg' : objGet st.users safeName = some user := hg
    simp [beginAuthentication, hu, getUserJs, jsGet_own st.users safeName user hg', hemp]
  · intro user hg hne
    have hg' : objGet st.users safeName = some user := hg
    have hemp : user.credentials.isEmpty = false := by
      cases hcc : user.credentials with
      | nil => exact absurd hcc hne
      | cons hd tl => rfl
    have hEv : (beginAuthentication rpID uvPolicy minted st username).1
        = .ok ⟨minted, rpID,
            (user.credentials.map fun cr =>
              (⟨cr.credentialID, "public-key", cr.transports⟩ : AllowCredential)).map
              (fun ac => { ac with id := ac.id }),
            uvPolicy⟩ := by
      simp [beginAuthentication, hu, getUserJs, jsGet_own st.users safeName user hg', hemp,
        generateAuthenticationOptions]
    refine ⟨_, hEv, ?_⟩
    simp [List.map_map]

/-- C9 (witness): for `alice` with her single stored credential, the
allow-list identifiers are exactly `["cred1"]`. -/
theorem C9_witness :
    ∃ p, (beginAuthentication "localhost" "discouraged" "m2" demoState (some "alice")).1 = .ok p
      ∧ p.allowCredentials.map (fun ac => ac.id)
          = demoUser.credentials.map (fun cr => cr.credentialID) :=
  (C9_auth_options_allow_list "localhost" "discouraged" "m2" demoState (some "alice") "alice"
      (by decide)).2.2 demoUser (by decide) (by decide)

/-- C10: any authentication attempt whose outcome is not `verified: true`
(a request-shape error, a verifier exception, or a normal
`verified: false`) leaves the stored user records - counters, `lastUsed`
and the credential sets - completely unchanged, since `saveUser` runs only
in the verified branch. -/
theorem C10_store_unchanged_on_failure
    (verify : AssertionCheck → String → Credential → Except String AuthVerification)
    (now : String) (st : ServerState) (username : Option String)
    (assertion : Option AssertionCheck)
    (h : ((completeAuthenticationWith verify now st username assertion).1).isSuccess = false) :
    (completeAuthenticationWith verify now st username assertion).2.users = st.users := by
  rcases completeAuthWith_users_cases verify now st username assertion with hcase | hcase
  · exact hcase
  · rw [hcase] at h
    cases h

/-- C10 (witness): the invalid-signature attempt leaves the user store of
the concrete state unchanged. -/
theorem C10_witness :
    (completeAuthenticationWith
        (fun a c cred => .ok (verifyAuthenticationCeremony false a c cred)) "t1" demoState
        (some "alice") (some demoBadSig)).2.users = demoState.users :=
  C10_store_unchanged_on_failure _ "t1" demoState (some "alice") (some demoBadSig) (by decide)
